import Mathlib

/-!
Verification of `weather.py`: a small weather tool exposing `get_alerts` and
`get_forecast`, both built on `make_nws_request` and the pure formatter
`format_alert`.  The Python code is shallowly embedded: JSON values are an
inductive type, Python `dict.get` / subscripting / truthiness are modelled
explicitly, and an uncaught Python exception is the `none` result of an
`Option`-valued function.
-/

namespace Weather

/-- JSON values as produced by `response.json()`.  Numbers are modelled as
integers (the fields the handlers render are strings and whole numbers). -/
inductive Json where
  | null : Json
  | bool : Bool → Json
  | num : Int → Json
  | str : String → Json
  | arr : List Json → Json
  | obj : List (String × Json) → Json

/-- Python truthiness of a JSON value (`if not data: ...`). -/
def Json.truthy : Json → Bool
  | .null => false
  | .bool b => b
  | .num n => n != 0
  | .str s => s != ""
  | .arr xs => !xs.isEmpty
  | .obj kvs => !kvs.isEmpty

/-- First-match lookup in an association list, as in a Python dict
(keys of a dict parsed from JSON are unique, so first match is the match). -/
def lookupKey : List (String × Json) → String → Option Json
  | [], _ => none
  | (k, v) :: kvs, key => if k = key then some v else lookupKey kvs key

mutual

/-- Python `str()` of a JSON value, as applied by f-string interpolation:
`None` prints as `"None"`, booleans as `True`/`False`, numbers in decimal,
strings verbatim, containers by `repr`. -/
def pyStr : Json → String
  | .null => "None"
  | .bool true => "True"
  | .bool false => "False"
  | .num n => toString n
  | .str s => s
  | .arr xs => "[" ++ pyReprList xs ++ "]"
  | .obj kvs => "\x7b" ++ pyReprObj kvs ++ "\x7d"

/-- Python `repr()` of a JSON value, used for elements inside containers. -/
def pyRepr : Json → String
  | .null => "None"
  | .bool true => "True"
  | .bool false => "False"
  | .num n => toString n
  | .str s => "\x27" ++ s ++ "\x27"
  | .arr xs => "[" ++ pyReprList xs ++ "]"
  | .obj kvs => "\x7b" ++ pyReprObj kvs ++ "\x7d"

/-- Comma-separated `repr`s of list elements. -/
def pyReprList : List Json → String
  | [] => ""
  | [x] => pyRepr x
  | x :: y :: xs => pyRepr x ++ ", " ++ pyReprList (y :: xs)

/-- Comma-separated `key: repr(value)` pairs of a dict. -/
def pyReprObj : List (String × Json) → String
  | [] => ""
  | [(k, v)] => "\x27" ++ k ++ "\x27: " ++ pyRepr v
  | (k, v) :: kv :: kvs => "\x27" ++ k ++ "\x27: " ++ pyRepr v ++ ", " ++ pyReprObj (kv :: kvs)

end

/-- Python subscript `x[key]` with a string key: dict lookup.  A missing key
(`KeyError`) or a non-dict value (`TypeError`) raises, modelled as `none`. -/
def pySubscript (j : Json) (k : String) : Option Json :=
  match j with
  | .obj kvs => lookupKey kvs k
  | _ => none

/-- Python `x.get(key, default)`.  Returns the stored value when the key is
present — even when that value is `None` — and the default otherwise.  On a
non-dict receiver `.get` raises `AttributeError`, modelled as `none`. -/
def pyGetD (j : Json) (k : String) (dflt : Json) : Option Json :=
  match j with
  | .obj kvs => some ((lookupKey kvs k).getD dflt)
  | _ => none

/-- Membership of the (non-empty) string `k` in a string, Python `k in s`. -/
def strContains (s k : String) : Bool :=
  (s.splitOn k).length ≥ 2

/-- Python `key in x` with a string key: key membership for a dict, element
membership for a list, substring test for a string; `TypeError` (modelled as
`none`) otherwise. -/
def pyContains (j : Json) (k : String) : Option Bool :=
  match j with
  | .obj kvs => some (lookupKey kvs k).isSome
  | .arr xs => some (listHasStr xs k)
  | .str s => some (strContains s k)
  | _ => none
where
  /-- Python `==` membership of a string among JSON values: only an equal
  string element compares equal. -/
  listHasStr : List Json → String → Bool
    | [], _ => false
    | .str s :: xs, key => s = key || listHasStr xs key
    | _ :: xs, key => listHasStr xs key

/-- Python iteration over a JSON value: elements of a list, keys of a dict,
characters of a string; `TypeError` (modelled as `none`) otherwise. -/
def pyIter : Json → Option (List Json)
  | .arr xs => some xs
  | .obj kvs => some (kvs.map fun kv => .str kv.1)
  | .str s => some (s.toList.map fun c => .str (String.singleton c))
  | _ => none

/-- Python `x[:5]` followed by iteration: the first five elements of a list,
or the first five characters of a string; `TypeError` otherwise. -/
def pySlice5 : Json → Option (List Json)
  | .arr xs => some (xs.take 5)
  | .str s => some ((s.toList.take 5).map fun c => .str (String.singleton c))
  | _ => none

/-- Python list comprehension `[f x for x in xs]` over a fallible body: the
first raised exception (a `none` from `f`) propagates. -/
def mapOpt (f : Json → Option String) : List Json → Option (List String)
  | [] => some []
  | x :: xs =>
    match f x with
    | none => none
    | some y =>
      match mapOpt f xs with
      | none => none
      | some ys => some (y :: ys)

/-- Outcome of the underlying HTTP GET inside `make_nws_request`: the request
itself raised (network error or 30 s timeout), or a response arrived with a
status code and a body that either parses as JSON or does not. -/
inductive HttpResult where
  | exn : HttpResult
  | resp : Nat → Option Json → HttpResult

/-- Shallow embedding of `make_nws_request` (weather.py lines 13-25): inside
`try`, the GET may raise, `raise_for_status` raises on any non-2xx status, and
`response.json()` raises on an unparseable body; every exception is caught and
turned into `None`.  The function is total: nothing escapes its boundary. -/
def make_nws_request : HttpResult → Option Json
  | .exn => none
  | .resp status body =>
    if 200 ≤ status ∧ status < 300 then body else none

/-- Shallow embedding of `format_alert` (weather.py lines 27-36).
`feature["properties"]` may raise (`none`); each `props.get(...)` substitutes
its fallback only for a missing key.  The f-string opens and closes with a
newline. -/
def format_alert (feature : Json) : Option String := do
  let props ← pySubscript feature "properties"
  let ev ← pyGetD props "event" (.str "Unknown")
  let area ← pyGetD props "areaDesc" (.str "Unknown")
  let sev ← pyGetD props "severity" (.str "Unknown")
  let desc ← pyGetD props "description" (.str "No description available")
  let ins ← pyGetD props "instruction" (.str "No specific instructions provided")
  pure ("\nEvent: " ++ pyStr ev ++ "\nArea: " ++ pyStr area ++ "\nSeverity: " ++ pyStr sev
    ++ "\nDescription: " ++ pyStr desc ++ "\nInstructions: " ++ pyStr ins ++ "\n")

/-- Shallow embedding of `get_alerts` (weather.py lines 39-55), parametrised by
the fetch result for the alerts URL (`none` = `make_nws_request` returned
`None`).  The result `none` models an uncaught exception in the handler. -/
def get_alerts (data : Option Json) : Option String :=
  match data with
  | none => some "Unable to fetch alerts or no alerts found."
  | some d =>
    if d.truthy then
      match pyContains d "features" with
      | none => none
      | some false => some "Unable to fetch alerts or no alerts found."
      | some true =>
        match pySubscript d "features" with
        | none => none
        | some feats =>
          if feats.truthy then
            match pyIter feats with
            | none => none
            | some items =>
              match mapOpt format_alert items with
              | none => none
              | some blocks => some (String.intercalate "\n--\n" blocks)
          else some "No active alerts for this state."
    else some "Unable to fetch alerts or no alerts found."

/-- Body of the period loop in `get_forecast` (weather.py lines 84-89): each
field is looked up by subscript (raising on absence), and the f-string reads
literally `Tempature` and the two characters `Â°` between the temperature and
its unit, opening and closing with a newline. -/
def render_period (period : Json) : Option String := do
  let nm ← pySubscript period "name"
  let temp ← pySubscript period "temperature"
  let tempUnit ← pySubscript period "temperatureUnit"
  let windSpeed ← pySubscript period "windSpeed"
  let windDir ← pySubscript period "windDirection"
  let detailed ← pySubscript period "detailedForecast"
  pure ("\n" ++ pyStr nm ++ ":\nTempature: " ++ pyStr temp ++ "Â°" ++ pyStr tempUnit
    ++ "\nWind: " ++ pyStr windSpeed ++ " " ++ pyStr windDir
    ++ "\nForecast: " ++ pyStr detailed ++ "\n")

/-- Shallow embedding of `get_forecast` (weather.py lines 58-92), parametrised
by the network as a map from URL to fetch result, and by the points URL the
handler builds from the coordinates.  The second fetch happens only when the
extracted forecast URL is truthy; passing a non-string URL to the client
raises inside `make_nws_request`'s `try` and so yields `None` there.  The
result `none` models an uncaught exception in the handler. -/
def get_forecast (env : String → Option Json) (points_url : String) : Option String :=
  match env points_url with
  | none => some "Unable to fetch points data for this location"
  | some pd =>
    if pd.truthy then
      match pyGetD pd "properties" (.obj []) with
      | none => none
      | some props =>
        match pyGetD props "forecast" .null with
        | none => none
        | some furl =>
          if furl.truthy then
            match (match furl with | .str s => env s | _ => none) with
            | none => some "Unable to get forecast data for this location"
            | some fd =>
              if fd.truthy then
                match pyGetD fd "properties" (.obj []) with
                | none => none
                | some fprops =>
                  match pyGetD fprops "periods" (.arr []) with
                  | none => none
                  | some periods =>
                    match pySlice5 periods with
                    | none => none
                    | some ps =>
                      match mapOpt render_period ps with
                      | none => none
                      | some blocks => some (String.intercalate "\n--\n" blocks)
              else some "Unable to get forecast data for this location"
          else some "No forecast data available for this location"
    else some "Unable to fetch points data for this location"

/-! Helper lemmas shared by the claim theorems. -/

theorem lookupKey_ne_nil {kvs : List (String × Json)} {k : String} {v : Json}
    (h : lookupKey kvs k = some v) : kvs ≠ [] := by
  cases kvs with
  | nil => simp [lookupKey] at h
  | cons a l => simp

theorem truthy_obj_of_lookupKey {kvs : List (String × Json)} {k : String} {v : Json}
    (h : lookupKey kvs k = some v) : Json.truthy (.obj kvs) = true := by
  have hne := lookupKey_ne_nil h
  cases kvs with
  | nil => exact absurd rfl hne
  | cons a l => rfl

theorem truthy_str {s : String} (h : s ≠ "") : Json.truthy (.str s) = true := by
  simp [Json.truthy, h]

theorem truthy_null_eq : Json.truthy .null = false := rfl

theorem truthy_arr_nil : Json.truthy (.arr []) = false := rfl

theorem truthy_arr {xs : List Json} (h : xs ≠ []) : Json.truthy (.arr xs) = true := by
  cases xs with
  | nil => exact absurd rfl h
  | cons a l => rfl

theorem mapOpt_length {f : Json → Option String} :
    ∀ {xs : List Json} {ys : List String}, mapOpt f xs = some ys → ys.length = xs.length := by
  intro xs
  induction xs with
  | nil =>
    intro ys h
    simp [mapOpt] at h
    simp [← h]
  | cons x xs ih =>
    intro ys h
    simp only [mapOpt] at h
    cases hfx : f x with
    | none => rw [hfx] at h; exact absurd h (by simp)
    | some y =>
      rw [hfx] at h
      cases hm : mapOpt f xs with
      | none => rw [hm] at h; exact absurd h (by simp)
      | some ys2 =>
        rw [hm] at h
        simp at h
        subst h
        simp [ih hm]

theorem mapOpt_none_of_mem {f : Json → Option String} {x : Json} :
    ∀ {xs : List Json}, x ∈ xs → f x = none → mapOpt f xs = none := by
  intro xs
  induction xs with
  | nil => intro h; exact absurd h (List.not_mem_nil x)
  | cons a l ih =>
    intro hmem hfx
    rcases List.mem_cons.mp hmem with h | h
    · subst h; simp [mapOpt, hfx]
    · cases hfa : f a with
      | none => simp [mapOpt, hfa]
      | some y => simp [mapOpt, hfa, ih h hfx]

/-! Concrete fixtures used by the witnesses. -/

/-- Network that fails every fetch. -/
def envFetchFail : String → Option Json := fun _ => none

/-- Points response whose `properties` object has no `forecast` key. -/
def pdNoForecast : Json := .obj [("properties", .obj [])]

/-- Network serving `pdNoForecast` at the points URL `"P"`. -/
def envNoForecast : String → Option Json :=
  fun u => if u = "P" then some pdNoForecast else none

/-- Points response whose forecast URL is `"F"`. -/
def pdWithForecast : Json := .obj [("properties", .obj [("forecast", .str "F")])]

/-- Network serving `pdWithForecast` at `"P"` and failing the forecast fetch. -/
def envForecastFetchFails : String → Option Json :=
  fun u => if u = "P" then some pdWithForecast else none

/-- Network serving an empty JSON object at the points URL `"P"`. -/
def envEmptyPoints : String → Option Json :=
  fun u => if u = "P" then some (.obj []) else none

/-- Network whose forecast response has no `periods` key. -/
def envEmptyPeriods : String → Option Json :=
  fun u =>
    if u = "P" then some pdWithForecast
    else if u = "F" then some (.obj [("properties", .obj [])])
    else none

/-- C7: whenever the underlying HTTP request throws, times out, returns a
non-2xx status, or yields an unparseable body, `make_nws_request` returns the
absence marker `none`; being a total function, it never raises past its
boundary. -/
theorem make_nws_request_failure_none (status : Nat) (body : Option Json) :
    make_nws_request .exn = none
    ∧ (¬ (200 ≤ status ∧ status < 300) → make_nws_request (.resp status body) = none)
    ∧ make_nws_request (.resp status none) = none := by
  refine ⟨rfl, ?_, ?_⟩
  · intro h
    simp [make_nws_request, h]
  · by_cases h : 200 ≤ status ∧ status < 300 <;> simp [make_nws_request, h]

/-- Witness for C7 at status 404 with a parseable body and at status 200 with
an unparseable body. -/
theorem make_nws_request_failure_none_witness :
    make_nws_request (.resp 404 (some .null)) = none
    ∧ make_nws_request (.resp 200 none) = none :=
  ⟨(make_nws_request_failure_none 404 (some .null)).2.1 (by decide),
   (make_nws_request_failure_none 200 none).2.2⟩

/-- C3: `get_forecast` returns exactly the points-failure message when the
points fetch fails, exactly the no-forecast-data message when the points fetch
succeeds (with truthy data) but `properties.forecast` is absent (the `.get`
chain yields `None`), and exactly the forecast-failure message when the second
fetch fails. -/
theorem get_forecast_error_messages :
    (∀ (env : String → Option Json) (purl : String), env purl = none →
      get_forecast env purl = some "Unable to fetch points data for this location")
    ∧ (∀ (env : String → Option Json) (purl : String) (pd props : Json),
        env purl = some pd → pd.truthy = true →
        pyGetD pd "properties" (.obj []) = some props →
        pyGetD props "forecast" .null = some .null →
        get_forecast env purl = some "No forecast data available for this location")
    ∧ (∀ (env : String → Option Json) (purl : String) (pd props : Json) (furl : String),
        env purl = some pd → pd.truthy = true →
        pyGetD pd "properties" (.obj []) = some props →
        pyGetD props "forecast" .null = some (.str furl) → furl ≠ "" →
        env furl = none →
        get_forecast env purl = some "Unable to get forecast data for this location") := by
  refine ⟨?_, ?_, ?_⟩
  · intro env purl h
    simp [get_forecast, h]
  · intro env purl pd props h1 h2 h3 h4
    simp [get_forecast, h1, h2, h3, h4, truthy_null_eq]
  · intro env purl pd props furl h1 h2 h3 h4 h5 h6
    simp [get_forecast, h1, h2, h3, h4, truthy_str h5, h6]

/-- Witness for C3: the three error branches at concrete networks. -/
theorem get_forecast_error_messages_witness :
    get_forecast envFetchFail "P" = some "Unable to fetch points data for this location"
    ∧ get_forecast envNoForecast "P" = some "No forecast data available for this location"
    ∧ get_forecast envForecastFetchFails "P"
        = some "Unable to get forecast data for this location" :=
  ⟨get_forecast_error_messages.1 envFetchFail "P" rfl,
   get_forecast_error_messages.2.1 envNoForecast "P" pdNoForecast (.obj []) rfl rfl rfl rfl,
   get_forecast_error_messages.2.2 envForecastFetchFails "P" pdWithForecast
     (.obj [("forecast", .str "F")]) "F" rfl rfl rfl rfl (by decide) rfl⟩

/-- C4: `get_alerts` returns exactly the fetch-failure message when the fetch
fails, when the response is falsy, or when a truthy response lacks a
`features` key; and exactly the no-alerts message when `features` is the empty
array.  The branches are tried in this order, so the first match wins. -/
theorem get_alerts_error_messages :
    get_alerts none = some "Unable to fetch alerts or no alerts found."
    ∧ (∀ d : Json, d.truthy = false →
        get_alerts (some d) = some "Unable to fetch alerts or no alerts found.")
    ∧ (∀ d : Json, d.truthy = true → pyContains d "features" = some false →
        get_alerts (some d) = some "Unable to fetch alerts or no alerts found.")
    ∧ (∀ kvs : List (String × Json), lookupKey kvs "features" = some (.arr []) →
        get_alerts (some (.obj kvs)) = some "No active alerts for this state.") := by
  refine ⟨rfl, ?_, ?_, ?_⟩
  · intro d h
    simp [get_alerts, h]
  · intro d h1 h2
    simp [get_alerts, h1, h2]
  · intro kvs h
    have hne := lookupKey_ne_nil h
    simp [get_alerts, pyContains, h, pySubscript, Json.truthy, hne]

/-- Witness for C4: a response without a `features` key, a falsy (null)
response, and a response with an empty `features` array. -/
theorem get_alerts_error_messages_witness :
    get_alerts (some (.obj [("title", .str "x")]))
        = some "Unable to fetch alerts or no alerts found."
    ∧ get_alerts (some .null) = some "Unable to fetch alerts or no alerts found."
    ∧ get_alerts (some (.obj [("features", .arr [])]))
        = some "No active alerts for this state." :=
  ⟨get_alerts_error_messages.2.2.1 _ rfl rfl,
   get_alerts_error_messages.2.1 _ rfl,
   get_alerts_error_messages.2.2.2 _ rfl⟩

/-- C9: when the points fetch succeeds but returns a falsy JSON value, the
handler takes the same branch as a failed fetch: the output equals the output
on a failed fetch, namely the points-failure message, so the caller cannot
distinguish the two cases. -/
theorem get_forecast_falsy_points_message
    (env env₂ : String → Option Json) (purl purl₂ : String) (d : Json)
    (h1 : env purl = some d) (h2 : d.truthy = false) (h3 : env₂ purl₂ = none) :
    get_forecast env purl = get_forecast env₂ purl₂
    ∧ get_forecast env purl = some "Unable to fetch points data for this location" := by
  have ha : get_forecast env purl = some "Unable to fetch points data for this location" := by
    simp [get_forecast, h1, h2]
  have hb : get_forecast env₂ purl₂ = some "Unable to fetch points data for this location" := by
    simp [get_forecast, h3]
  exact ⟨ha.trans hb.symm, ha⟩

/-- Witness for C9 at the empty-object points response. -/
theorem get_forecast_falsy_points_message_witness :
    get_forecast envEmptyPoints "P" = get_forecast envFetchFail "P"
    ∧ get_forecast envEmptyPoints "P"
        = some "Unable to fetch points data for this location" :=
  get_forecast_falsy_points_message envEmptyPoints envFetchFail "P" "P" (.obj []) rfl rfl rfl

/-- C10: when both fetches succeed with truthy data and `properties.periods`
is absent (so the `.get` default `[]` applies) or is the empty array,
`get_forecast` returns the empty string, the join of zero blocks, not an
error message. -/
theorem get_forecast_empty_periods_empty_string
    (env : String → Option Json) (purl : String) (pd props fd fprops : Json) (furl : String)
    (h1 : env purl = some pd) (h2 : pd.truthy = true)
    (h3 : pyGetD pd "properties" (.obj []) = some props)
    (h4 : pyGetD props "forecast" .null = some (.str furl)) (h5 : furl ≠ "")
    (h6 : env furl = some fd) (h7 : fd.truthy = true)
    (h8 : pyGetD fd "properties" (.obj []) = some fprops)
    (h9 : pyGetD fprops "periods" (.arr []) = some (.arr [])) :
    get_forecast env purl = some "" := by
  simp [get_forecast, h1, h2, h3, h4, truthy_str h5, h6, h7, h8, h9, pySlice5, mapOpt,
    String.intercalate]

/-- Witness for C10: a forecast response with no `periods` key. -/
theorem get_forecast_empty_periods_empty_string_witness :
    get_forecast envEmptyPeriods "P" = some "" :=
  get_forecast_empty_periods_empty_string envEmptyPeriods "P" pdWithForecast
    (.obj [("forecast", .str "F")]) (.obj [("properties", .obj [])]) (.obj []) "F"
    rfl rfl rfl rfl (by decide) rfl rfl rfl rfl

/-- First forecast period fixture. -/
def periodTonight : Json := .obj [("name", .str "Tonight"), ("temperature", .num 61),
  ("temperatureUnit", .str "F"), ("windSpeed", .str "5 mph"), ("windDirection", .str "SW"),
  ("detailedForecast", .str "Clear")]

/-- Second forecast period fixture. -/
def periodSaturday : Json := .obj [("name", .str "Saturday"), ("temperature", .num 75),
  ("temperatureUnit", .str "F"), ("windSpeed", .str "10 mph"), ("windDirection", .str "N"),
  ("detailedForecast", .str "Sunny")]

/-- Forecast response holding the two period fixtures. -/
def fdTwoPeriods : Json :=
  .obj [("properties", .obj [("periods", .arr [periodTonight, periodSaturday])])]

/-- Network serving `pdWithForecast` at `"P"` and `fdTwoPeriods` at `"F"`. -/
def envTwoPeriods : String → Option Json :=
  fun u =>
    if u = "P" then some pdWithForecast
    else if u = "F" then some fdTwoPeriods
    else none

/-- Text the code produces for `periodTonight`. -/
def blockTonight : String :=
  "\nTonight:\nTempature: 61Â°F\nWind: 5 mph SW\nForecast: Clear\n"

/-- Text the code produces for `periodSaturday`. -/
def blockSaturday : String :=
  "\nSaturday:\nTempature: 75Â°F\nWind: 10 mph N\nForecast: Sunny\n"

/-- C5: on a successful points-then-forecast pair whose `periods` array has
length M and whose first `min M 5` periods all render, `get_forecast` returns
exactly `min M 5` blocks, taken from the front of the array in original order,
joined by the separator. -/
theorem get_forecast_block_count
    (env : String → Option Json) (purl : String) (pd props fd fprops : Json) (furl : String)
    (xs : List Json) (blocks : List String)
    (h1 : env purl = some pd) (h2 : pd.truthy = true)
    (h3 : pyGetD pd "properties" (.obj []) = some props)
    (h4 : pyGetD props "forecast" .null = some (.str furl)) (h5 : furl ≠ "")
    (h6 : env furl = some fd) (h7 : fd.truthy = true)
    (h8 : pyGetD fd "properties" (.obj []) = some fprops)
    (h9 : pyGetD fprops "periods" (.arr []) = some (.arr xs))
    (h10 : mapOpt render_period (xs.take 5) = some blocks) :
    get_forecast env purl = some (String.intercalate "\n--\n" blocks)
    ∧ blocks.length = min xs.length 5 := by
  constructor
  · simp [get_forecast, h1, h2, h3, h4, truthy_str h5, h6, h7, h8, h9, pySlice5, h10]
  · rw [mapOpt_length h10, List.length_take, Nat.min_comm]

/-- Witness for C5 at a two-period forecast: two blocks, `min 2 5 = 2`. -/
theorem get_forecast_block_count_witness :
    get_forecast envTwoPeriods "P"
      = some (String.intercalate "\n--\n" [blockTonight, blockSaturday])
    ∧ ([blockTonight, blockSaturday] : List String).length
        = min ([periodTonight, periodSaturday] : List Json).length 5 :=
  get_forecast_block_count envTwoPeriods "P" pdWithForecast (.obj [("forecast", .str "F")])
    fdTwoPeriods (.obj [("periods", .arr [periodTonight, periodSaturday])]) "F"
    [periodTonight, periodSaturday] [blockTonight, blockSaturday]
    rfl rfl rfl rfl (by decide) rfl rfl rfl rfl rfl

/-- Alert feature fixture with all five fields present. -/
def alertFeature : Json := .obj [("properties", .obj [("event", .str "Flood Warning"),
  ("areaDesc", .str "King County"), ("severity", .str "Severe"),
  ("description", .str "Rivers rising"), ("instruction", .str "Move to higher ground")])]

/-- Text the code produces for `alertFeature`. -/
def alertBlock : String :=
  "\nEvent: Flood Warning\nArea: King County\nSeverity: Severe\nDescription: Rivers rising\nInstructions: Move to higher ground\n"

/-- C6: on a successful alerts response whose `features` array is non-empty
and whose features all format, `get_alerts` returns one block per feature in
original array order, joined by the separator. -/
theorem get_alerts_block_count
    (kvs : List (String × Json)) (fs : List Json) (blocks : List String)
    (h1 : lookupKey kvs "features" = some (.arr fs)) (h2 : fs ≠ [])
    (h3 : mapOpt format_alert fs = some blocks) :
    get_alerts (some (.obj kvs)) = some (String.intercalate "\n--\n" blocks)
    ∧ blocks.length = fs.length := by
  constructor
  · simp [get_alerts, truthy_obj_of_lookupKey h1, pyContains, h1, pySubscript,
      truthy_arr h2, pyIter, h3]
  · exact mapOpt_length h3

/-- Witness for C6 at a one-feature response. -/
theorem get_alerts_block_count_witness :
    get_alerts (some (.obj [("features", .arr [alertFeature])]))
      = some (String.intercalate "\n--\n" [alertBlock])
    ∧ ([alertBlock] : List String).length = ([alertFeature] : List Json).length :=
  get_alerts_block_count [("features", .arr [alertFeature])] [alertFeature] [alertBlock]
    rfl (List.cons_ne_nil _ _) rfl

/-- Forecast period fixture lacking the required `temperature` field. -/
def periodNoTemp : Json := .obj [("name", .str "Tonight"), ("temperatureUnit", .str "F"),
  ("windSpeed", .str "5 mph"), ("windDirection", .str "SW"),
  ("detailedForecast", .str "Clear")]

/-- Network whose forecast response contains only `periodNoTemp`. -/
def envBadPeriod : String → Option Json :=
  fun u =>
    if u = "P" then some pdWithForecast
    else if u = "F" then some (.obj [("properties", .obj [("periods", .arr [periodNoTemp])])])
    else none

/-- C8: if any forecast period among the first `min M 5` entries fails to
render (a required field lookup raises `KeyError`, modelled as
`render_period p = none`), `get_forecast` propagates the exception — result
`none` — rather than returning an error-message string or skipping the
period. -/
theorem get_forecast_missing_field_raises
    (env : String → Option Json) (purl : String) (pd props fd fprops p : Json) (furl : String)
    (xs : List Json)
    (h1 : env purl = some pd) (h2 : pd.truthy = true)
    (h3 : pyGetD pd "properties" (.obj []) = some props)
    (h4 : pyGetD props "forecast" .null = some (.str furl)) (h5 : furl ≠ "")
    (h6 : env furl = some fd) (h7 : fd.truthy = true)
    (h8 : pyGetD fd "properties" (.obj []) = some fprops)
    (h9 : pyGetD fprops "periods" (.arr []) = some (.arr xs))
    (h10 : p ∈ xs.take 5) (h11 : render_period p = none) :
    get_forecast env purl = none := by
  have hm : mapOpt render_period (xs.take 5) = none := mapOpt_none_of_mem h10 h11
  simp [get_forecast, h1, h2, h3, h4, truthy_str h5, h6, h7, h8, h9, pySlice5, hm]

/-- Witness for C8 at a period missing `temperature`. -/
theorem get_forecast_missing_field_raises_witness :
    get_forecast envBadPeriod "P" = none :=
  get_forecast_missing_field_raises envBadPeriod "P" pdWithForecast
    (.obj [("forecast", .str "F")])
    (.obj [("properties", .obj [("periods", .arr [periodNoTemp])])])
    (.obj [("periods", .arr [periodNoTemp])]) periodNoTemp "F" [periodNoTemp]
    rfl rfl rfl rfl (by decide) rfl rfl rfl rfl (by simp) rfl

/-- Rendering of one forecast period following the specification text
(§4.3 step 6): the block `{name}:`, `Temperature: {temperature}°{temperatureUnit}`,
`Wind: {windSpeed} {windDirection}`, `Forecast: {detailedForecast}` with no
surrounding newlines, for comparison with `render_period`. -/
def spec_render_period (period : Json) : Option String := do
  let nm ← pySubscript period "name"
  let temp ← pySubscript period "temperature"
  let tempUnit ← pySubscript period "temperatureUnit"
  let windSpeed ← pySubscript period "windSpeed"
  let windDir ← pySubscript period "windDirection"
  let detailed ← pySubscript period "detailedForecast"
  pure (pyStr nm ++ ":\nTemperature: " ++ pyStr temp ++ "°" ++ pyStr tempUnit
    ++ "\nWind: " ++ pyStr windSpeed ++ " " ++ pyStr windDir
    ++ "\nForecast: " ++ pyStr detailed)

/-- Forecast response holding only `periodTonight`. -/
def fdOnePeriod : Json := .obj [("properties", .obj [("periods", .arr [periodTonight])])]

/-- Network serving `pdWithForecast` at `"P"` and `fdOnePeriod` at `"F"`. -/
def envOnePeriod : String → Option Json :=
  fun u =>
    if u = "P" then some pdWithForecast
    else if u = "F" then some fdOnePeriod
    else none

/-- C1 fails on the code: at a fully-populated single period, `get_forecast`
emits the block with the literal misspelling `Tempature`, the two stray
characters `Â°` before the unit, and a newline at each end, which differs from
the claimed text `Tonight:\nTemperature: 61°F\n...` as rendered by
`spec_render_period`. -/
theorem render_differs_from_spec_text :
    get_forecast envOnePeriod "P" = some blockTonight
    ∧ spec_render_period periodTonight
        = some "Tonight:\nTemperature: 61°F\nWind: 5 mph SW\nForecast: Clear"
    ∧ blockTonight ≠ "Tonight:\nTemperature: 61°F\nWind: 5 mph SW\nForecast: Clear" :=
  ⟨by decide, by decide, by decide⟩

/-- C1 amended: for every period record with all six required fields present,
the code renders it as the exact text consisting of a newline, the name, the
line `Tempature: ` with the value, the characters `Â°`, and the unit, the
wind line, the forecast line, and a closing newline; and `get_forecast` joins
all rendered blocks with `\n--\n`. -/
theorem get_forecast_rendered_text :
    (∀ p nm temp tu ws wd df : Json,
      pySubscript p "name" = some nm →
      pySubscript p "temperature" = some temp →
      pySubscript p "temperatureUnit" = some tu →
      pySubscript p "windSpeed" = some ws →
      pySubscript p "windDirection" = some wd →
      pySubscript p "detailedForecast" = some df →
      render_period p = some ("\n" ++ pyStr nm ++ ":\nTempature: " ++ pyStr temp ++ "Â°"
        ++ pyStr tu ++ "\nWind: " ++ pyStr ws ++ " " ++ pyStr wd
        ++ "\nForecast: " ++ pyStr df ++ "\n"))
    ∧ (∀ (env : String → Option Json) (purl : String) (pd props fd fprops : Json)
        (furl : String) (xs : List Json) (blocks : List String),
        env purl = some pd → pd.truthy = true →
        pyGetD pd "properties" (.obj []) = some props →
        pyGetD props "forecast" .null = some (.str furl) → furl ≠ "" →
        env furl = some fd → fd.truthy = true →
        pyGetD fd "properties" (.obj []) = some fprops →
        pyGetD fprops "periods" (.arr []) = some (.arr xs) →
        mapOpt render_period (xs.take 5) = some blocks →
        get_forecast env purl = some (String.intercalate "\n--\n" blocks)) := by
  constructor
  · intro p nm temp tu ws wd df a1 a2 a3 a4 a5 a6
    simp [render_period, a1, a2, a3, a4, a5, a6]
  · intro env purl pd props fd fprops furl xs blocks h1 h2 h3 h4 h5 h6 h7 h8 h9 h10
    simp [get_forecast, h1, h2, h3, h4, truthy_str h5, h6, h7, h8, h9, pySlice5, h10]

/-- Witness for the amended C1 at `periodTonight` and a one-period network. -/
theorem get_forecast_rendered_text_witness :
    render_period periodTonight
      = some ("\n" ++ pyStr (.str "Tonight") ++ ":\nTempature: " ++ pyStr (.num 61) ++ "Â°"
        ++ pyStr (.str "F") ++ "\nWind: " ++ pyStr (.str "5 mph") ++ " " ++ pyStr (.str "SW")
        ++ "\nForecast: " ++ pyStr (.str "Clear") ++ "\n")
    ∧ get_forecast envOnePeriod "P" = some (String.intercalate "\n--\n" [blockTonight]) :=
  ⟨get_forecast_rendered_text.1 periodTonight (.str "Tonight") (.num 61) (.str "F")
      (.str "5 mph") (.str "SW") (.str "Clear") rfl rfl rfl rfl rfl rfl,
   get_forecast_rendered_text.2 envOnePeriod "P" pdWithForecast (.obj [("forecast", .str "F")])
     fdOnePeriod (.obj [("periods", .arr [periodTonight])]) "F" [periodTonight] [blockTonight]
     rfl rfl rfl rfl (by decide) rfl rfl rfl rfl rfl⟩

/-- Value-or-fallback selection following the specification text (§4.4): the
fallback applies both when the field is missing and when its value is null. -/
def spec_field (props : Json) (k : String) (fallback : String) : Option String :=
  match pyGetD props k .null with
  | none => none
  | some .null => some fallback
  | some v => some (pyStr v)

/-- Alert formatting following the specification text (§4.4), for comparison
with `format_alert`: same block layout, but fallbacks also cover null
values. -/
def spec_format_alert (feature : Json) : Option String := do
  let props ← pySubscript feature "properties"
  let ev ← spec_field props "event" "Unknown"
  let area ← spec_field props "areaDesc" "Unknown"
  let sev ← spec_field props "severity" "Unknown"
  let desc ← spec_field props "description" "No description available"
  let ins ← spec_field props "instruction" "No specific instructions provided"
  pure ("\nEvent: " ++ ev ++ "\nArea: " ++ area ++ "\nSeverity: " ++ sev
    ++ "\nDescription: " ++ desc ++ "\nInstructions: " ++ ins ++ "\n")

/-- Alert feature fixture whose `event` field is present but null. -/
def nullEventFeature : Json := .obj [("properties", .obj [("event", Json.null)])]

/-- C2 fails on the code: at a feature whose `event` value is null, the code
renders `Event: None` — `dict.get` returns the stored null, which Python
prints as `None` — while the claim requires the fallback `Event: Unknown`, as
`spec_format_alert` produces. -/
theorem format_alert_null_not_fallback :
    format_alert nullEventFeature
      = some "\nEvent: None\nArea: Unknown\nSeverity: Unknown\nDescription: No description available\nInstructions: No specific instructions provided\n"
    ∧ spec_format_alert nullEventFeature
      = some "\nEvent: Unknown\nArea: Unknown\nSeverity: Unknown\nDescription: No description available\nInstructions: No specific instructions provided\n"
    ∧ format_alert nullEventFeature ≠ spec_format_alert nullEventFeature :=
  ⟨rfl, rfl, by decide⟩

/-- C2 amended: for every feature whose `properties` field holds an object,
`format_alert` emits the five labelled lines `Event:`, `Area:`, `Severity:`,
`Description:`, `Instructions:`; a missing field yields its fixed fallback
string (`Unknown` for the first three, the explanatory texts for the last
two), while a field that is present — even with a null value — is rendered by
Python `str` (null prints as `None`). -/
theorem format_alert_fields (pkvs : List (String × Json)) (feature : Json)
    (h : pySubscript feature "properties" = some (.obj pkvs)) :
    format_alert feature
      = some ("\nEvent: " ++ pyStr ((lookupKey pkvs "event").getD (.str "Unknown"))
        ++ "\nArea: " ++ pyStr ((lookupKey pkvs "areaDesc").getD (.str "Unknown"))
        ++ "\nSeverity: " ++ pyStr ((lookupKey pkvs "severity").getD (.str "Unknown"))
        ++ "\nDescription: "
          ++ pyStr ((lookupKey pkvs "description").getD (.str "No description available"))
        ++ "\nInstructions: "
          ++ pyStr ((lookupKey pkvs "instruction").getD (.str "No specific instructions provided"))
        ++ "\n") := by
  simp [format_alert, h, pyGetD]

/-- Witness for the amended C2 at the null-event feature. -/
theorem format_alert_fields_witness :
    format_alert nullEventFeature
      = some ("\nEvent: "
          ++ pyStr ((lookupKey [("event", Json.null)] "event").getD (.str "Unknown"))
        ++ "\nArea: " ++ pyStr ((lookupKey [("event", Json.null)] "areaDesc").getD (.str "Unknown"))
        ++ "\nSeverity: "
          ++ pyStr ((lookupKey [("event", Json.null)] "severity").getD (.str "Unknown"))
        ++ "\nDescription: "
          ++ pyStr ((lookupKey [("event", Json.null)] "description").getD
              (.str "No description available"))
        ++ "\nInstructions: "
          ++ pyStr ((lookupKey [("event", Json.null)] "instruction").getD
              (.str "No specific instructions provided"))
        ++ "\n") :=
  format_alert_fields [("event", Json.null)] nullEventFeature rfl

end Weather
